import Mathlib

/-!
Verification of the lytgae telemetry bridge (main.go).

The development shallowly embeds the program: the Gateway record and its
rendering method, the event decoding boundary, the receive/reconnect loop of
Client.getEvents, and the reporter goroutine of main that maintains the
map from gateway identifier to its latest snapshot.

Modelling conventions:
- Timestamps are the Unix seconds read by time.Time.Unix(); the proto default
  (a missing timestamp decodes to the epoch) is the integer 0.
- uint64 counters are Nat: the program only stores and compares them, never
  computes with them, so no overflow is observable.
- The Go map is an association list with Go map semantics (insert replaces in
  place); the unspecified iteration order is never observed because the code
  sorts the key list before use.
- Side effects (gauge Set calls, log lines, channel sends, sleeps, stream
  opens) are reified as explicit output lists and trace items.
-/

namespace Lytgae

/-- Model of the ttnpb.GatewayConnectionStats payload fields read by main.go
(lines 240 to 246): a connect timestamp, three cumulative counters and their
paired timestamps. -/
structure GatewayConnectionStats where
  connectedAt : Int
  uplinkCount : Nat
  downlinkCount : Nat
  txAcknowledgmentCount : Nat
  lastUplinkReceivedAt : Int
  lastDownlinkReceivedAt : Int
  lastTxAcknowledgmentReceivedAt : Int
deriving DecidableEq

/-- Model of ttnpb.GatewayIdentifiers: the opaque gateway id string. -/
structure GatewayIdentifiers where
  gatewayId : String
deriving DecidableEq

/-- Model of ttnpb.EntityIdentifiers: the gateway identifier is optional, as
GetGatewayIds returns nil for a non-gateway entity. -/
structure EntityIdentifiers where
  gatewayIds : Option GatewayIdentifiers
deriving DecidableEq

/-- Model of id.GetGatewayIds().GetGatewayId() (main.go line 236): nil
propagation yields the empty string. -/
def EntityIdentifiers.getGatewayId (e : EntityIdentifiers) : String :=
  match e.gatewayIds with
  | some g => g.gatewayId
  | none => ""

/-- The payload carried by a decoded event: either the recognized stats shape
or some other runtime type (observed via the failed type assertion at
main.go line 229). -/
inductive EventData where
  | stats (data : GatewayConnectionStats)
  | other (typeName : String)
deriving DecidableEq

/-- Model of events.Event as consumed by main.go: Name(), Data() and
Identifiers(). -/
structure Event where
  name : String
  data : EventData
  identifiers : List EntityIdentifiers
deriving DecidableEq

/-- A raw proto event as handed to events.FromProto: it either decodes to an
Event or is malformed and decoding fails. -/
inductive ProtoEvent where
  | valid (e : Event)
  | malformed (msg : String)
deriving DecidableEq

/-- Boundary model of events.FromProto (main.go line 187): success or error. -/
def FromProto : ProtoEvent → Except String Event
  | ProtoEvent.valid e => Except.ok e
  | ProtoEvent.malformed m => Except.error m

/-- Model of the Gateway struct (main.go lines 38 to 47). -/
structure Gateway where
  id : String
  connectTime : Int
  uplinkTime : Int
  uplinkCount : Nat
  downlinkTime : Int
  downlinkCount : Nat
  txAckTime : Int
  txAckCount : Nat
deriving DecidableEq

/-- One clause of the human-readable summary line built by Gateway.String:
the leading identifier or one of the four conditional clauses. Formatting of
a timestamp is abstracted to the underlying Unix seconds. -/
inductive Part where
  | ident (id : String)
  | connected (t : Int)
  | uplinks (n : Nat) (t : Int)
  | downlinks (n : Nat) (t : Int)
  | txAck (n : Nat) (t : Int)
deriving DecidableEq

/-- Which of the two prometheus gauge vectors a sample is written to. -/
inductive GaugeVec where
  | gwTime
  | gwCount
deriving DecidableEq

/-- One gauge write WithLabelValues(gateway, type).Set(value); float64 values
are modelled exactly as integers since only presence and identity of samples
are at stake. -/
structure Sample where
  gauge : GaugeVec
  gateway : String
  type : String
  value : Int
deriving DecidableEq

/-- Model of Gateway.String (main.go lines 49 to 76): builds the parts of the
summary line and, as a side effect, the gauge samples. Each clause and its
samples are emitted only when the gating field is nonzero. -/
def Gateway.string (g : Gateway) : List Part × List Sample :=
  let st0 : List Part × List Sample := ([Part.ident g.id], [])
  let st1 :=
    if g.connectTime ≠ 0 then
      (st0.1 ++ [Part.connected g.connectTime],
       st0.2 ++ [{ gauge := GaugeVec.gwTime, gateway := g.id, type := "connect",
                   value := g.connectTime }])
    else st0
  let st2 :=
    if g.uplinkCount ≠ 0 then
      (st1.1 ++ [Part.uplinks g.uplinkCount g.uplinkTime],
       st1.2 ++ [{ gauge := GaugeVec.gwTime, gateway := g.id, type := "uplink",
                   value := g.uplinkTime },
                 { gauge := GaugeVec.gwCount, gateway := g.id, type := "uplink",
                   value := Int.ofNat g.uplinkCount }])
    else st1
  let st3 :=
    if g.downlinkCount ≠ 0 then
      (st2.1 ++ [Part.downlinks g.downlinkCount g.downlinkTime],
       st2.2 ++ [{ gauge := GaugeVec.gwTime, gateway := g.id, type := "downlink",
                   value := g.downlinkTime },
                 { gauge := GaugeVec.gwCount, gateway := g.id, type := "downlink",
                   value := Int.ofNat g.downlinkCount }])
    else st2
  let st4 :=
    if g.txAckCount ≠ 0 then
      (st3.1 ++ [Part.txAck g.txAckCount g.txAckTime],
       st3.2 ++ [{ gauge := GaugeVec.gwTime, gateway := g.id, type := "txack",
                   value := g.txAckTime },
                 { gauge := GaugeVec.gwCount, gateway := g.id, type := "txack",
                   value := Int.ofNat g.txAckCount }])
    else st3
  st4

/-- The gateway state store: the Go map gateways of main (line 219), as an
association list with map semantics. -/
abbrev Store := List (String × Gateway)

/-- Map write gateways[gwid] = gw: replace in place or append. -/
def Store.insert : Store → String → Gateway → Store
  | [], k, v => [(k, v)]
  | (k0, v0) :: rest, k, v =>
    if k0 = k then (k, v) :: rest else (k0, v0) :: Store.insert rest k v

/-- Map read gateways[k]. -/
def Store.get? : Store → String → Option Gateway
  | [], _ => none
  | (k0, v0) :: rest, k => if k0 = k then some v0 else Store.get? rest k

/-- Model of maps.Keys (main.go line 252). -/
def Store.keys (st : Store) : List String := st.map Prod.fst

/-- The zero Gateway standing for a nil map entry; never reached by the
reporter since it only indexes with keys of the map. -/
def nilGateway : Gateway :=
  { id := "", connectTime := 0, uplinkTime := 0, uplinkCount := 0,
    downlinkTime := 0, downlinkCount := 0, txAckTime := 0, txAckCount := 0 }

/-- Total map indexing gateways[g] used at main.go line 255. -/
def Store.getD (st : Store) (k : String) : Gateway :=
  (Store.get? st k).getD nilGateway

/-- Key consistency invariant: a snapshot is stored under its own id. -/
def Store.WF (st : Store) : Prop :=
  ∀ k gw, Store.get? st k = some gw → gw.id = k

/-- The single recognized event kind (main.go line 225). -/
def statsEventName : String := "gs.gateway.connection.stats"

/-- The Gateway literal built from one event for one identifier (main.go
lines 238 to 247). -/
def mkGateway (gwid : String) (data : GatewayConnectionStats) : Gateway :=
  { id := gwid
    connectTime := data.connectedAt
    uplinkCount := data.uplinkCount
    downlinkCount := data.downlinkCount
    txAckCount := data.txAcknowledgmentCount
    uplinkTime := data.lastUplinkReceivedAt
    downlinkTime := data.lastDownlinkReceivedAt
    txAckTime := data.lastTxAcknowledgmentReceivedAt }

/-- The per-identifier loop of main.go lines 235 to 250: stores the same
snapshot values independently under every named gateway id. -/
def fanout (ids : List EntityIdentifiers) (data : GatewayConnectionStats)
    (st : Store) : Store :=
  ids.foldl
    (fun acc i =>
      Store.insert acc (EntityIdentifiers.getGatewayId i)
        (mkGateway (EntityIdentifiers.getGatewayId i) data)) st

/-- Observable output of one reporter iteration: the type-mismatch log line
(main.go line 231) or one Gateway summary line (main.go line 255). -/
inductive Output where
  | typeMismatch (typeName : String)
  | gatewayLine (g : Gateway)
deriving DecidableEq

/-- One iteration of the reporter goroutine (main.go lines 224 to 257):
filter on the event name, type-assert the payload, fan the snapshot out to
every named gateway id, then log all gateways in sorted key order. -/
def mainStep (store : Store) (ev : Event) : Store × List Output :=
  if ev.name ≠ statsEventName then (store, [])
  else
    match ev.data with
    | EventData.other t => (store, [Output.typeMismatch t])
    | EventData.stats data =>
      let store1 := fanout ev.identifiers data store
      let k := List.insertionSort (fun a b => a ≤ b) (Store.keys store1)
      (store1, k.map (fun g => Output.gatewayLine (Store.getD store1 g)))

/-- The reporter applied to a whole sequence of channel events in order. -/
def mainLoop (store : Store) (evs : List Event) : Store :=
  evs.foldl (fun st ev => (mainStep st ev).1) store

/-- The gateway identifiers carried by the summary lines of an output list,
in emission order. -/
def outputIds (out : List Output) : List String :=
  out.filterMap (fun o =>
    match o with
    | Output.gatewayLine g => some g.id
    | Output.typeMismatch _ => none)

/-- The classification of a stream receive error as tested by
errors.IsCanceled and errors.IsUnavailable (main.go lines 173 and 176). -/
inductive StreamErrClass where
  | canceled
  | unavailable
  | other
deriving DecidableEq

/-- One result of (*c.esc).Recv(): a raw proto event or a classified error. -/
inductive RecvResult where
  | ok (p : ProtoEvent)
  | err (cls : StreamErrClass)
deriving DecidableEq

/-- The environment's answer to one call of client.Stream inside
connectEventstream: a new session, given as the sequence its Recv calls will
yield, or a failure to open. -/
inductive ConnectOutcome where
  | ok (session : List RecvResult)
  | fail (msg : String)
deriving DecidableEq

/-- The wrapped errors getEvents can return: connectEventstream at entry
(line 167), the reconnect path (line 181), the receive error itself
(line 184) and the FromProto decode error (line 189). -/
inductive FatalError where
  | connectFail (msg : String)
  | reconnectFail (msg : String)
  | recvFail (cls : StreamErrClass)
  | fromProtoFail (msg : String)
deriving DecidableEq

/-- Model of the Client struct fields getEvents reads: the fixed gateway
identifier set resolved at startup (main.go lines 78 to 86). -/
structure Client where
  server : String
  apikey : String
  gateways : List EntityIdentifiers
deriving DecidableEq

/-- Model of ttnpb.StreamEventsRequest. -/
structure StreamEventsRequest where
  identifiers : List EntityIdentifiers
deriving DecidableEq

/-- The request built by connectEventstream (main.go lines 151 to 153):
always the client's own gateway set. -/
def Client.streamEventsRequest (c : Client) : StreamEventsRequest :=
  { identifiers := c.gateways }

/-- Observable actions of getEvents: opening a stream with a request
(connectEventstream, line 154), the fixed backoff sleep in seconds
(line 178), and a send of a decoded event on the channel (line 192). -/
inductive TraceItem where
  | openStream (req : StreamEventsRequest)
  | sleepSeconds (n : Nat)
  | emit (e : Event)
deriving DecidableEq

/-- Result of running the receive loop for a bounded number of iterations:
either the function returned an error, or it is still running (blocked on
Recv or out of fuel). -/
inductive LoopOutcome where
  | fatal (e : FatalError) (tr : List TraceItem)
  | running (tr : List TraceItem)
deriving DecidableEq

/-- The trace of observable actions of a loop outcome. -/
def traceOf : LoopOutcome → List TraceItem
  | LoopOutcome.fatal _ tr => tr
  | LoopOutcome.running tr => tr

/-- The for-loop of Client.getEvents (main.go lines 170 to 193). The current
session is the list of pending Recv results; conns answers the k-th
connectEventstream call. A Canceled error continues on the same session. An
Unavailable error sleeps 5 seconds and re-opens; a failed re-open returns
the reconnect error, and after a successful re-open the code falls through
to return the original receive error (line 184) without any continue. A
FromProto failure returns; a decoded event is sent and the loop continues. -/
def getEventsLoop (c : Client) (conns : Nat → ConnectOutcome) :
    Nat → Nat → List RecvResult → List TraceItem → LoopOutcome
  | 0, _, _, tr => LoopOutcome.running tr
  | _ + 1, _, [], tr => LoopOutcome.running tr
  | fuel + 1, k, RecvResult.ok p :: rest, tr =>
    match FromProto p with
    | Except.error m => LoopOutcome.fatal (FatalError.fromProtoFail m) tr
    | Except.ok e => getEventsLoop c conns fuel k rest (tr ++ [TraceItem.emit e])
  | fuel + 1, k, RecvResult.err cls :: rest, tr =>
    match cls with
    | StreamErrClass.canceled => getEventsLoop c conns fuel k rest tr
    | StreamErrClass.unavailable =>
      let tr1 := tr ++ [TraceItem.sleepSeconds 5,
                        TraceItem.openStream c.streamEventsRequest]
      match conns k with
      | ConnectOutcome.fail m => LoopOutcome.fatal (FatalError.reconnectFail m) tr1
      | ConnectOutcome.ok _ =>
        LoopOutcome.fatal (FatalError.recvFail StreamErrClass.unavailable) tr1
    | StreamErrClass.other =>
      LoopOutcome.fatal (FatalError.recvFail StreamErrClass.other) tr

/-- Client.getEvents (main.go lines 164 to 194): the initial
connectEventstream, whose failure is fatal, then the receive loop. -/
def getEvents (c : Client) (conns : Nat → ConnectOutcome) (fuel : Nat) :
    LoopOutcome :=
  let tr := [TraceItem.openStream c.streamEventsRequest]
  match conns 0 with
  | ConnectOutcome.fail m => LoopOutcome.fatal (FatalError.connectFail m) tr
  | ConnectOutcome.ok sess => getEventsLoop c conns fuel 1 sess tr

/-! Helper lemmas about the store and the fan-out loop. -/

theorem Store.get?_insert_self (st : Store) (k : String) (v : Gateway) :
    Store.get? (Store.insert st k v) k = some v := by
  induction st with
  | nil => simp [Store.insert, Store.get?]
  | cons hd tl ih =>
    obtain ⟨k0, v0⟩ := hd
    by_cases h : k0 = k
    · simp [Store.insert, h, Store.get?]
    · simp [Store.insert, h, Store.get?, ih]

theorem Store.get?_insert_of_ne (st : Store) (k k1 : String) (v : Gateway)
    (h : k1 ≠ k) :
    Store.get? (Store.insert st k v) k1 = Store.get? st k1 := by
  induction st with
  | nil => simp [Store.insert, Store.get?, Ne.symm h]
  | cons hd tl ih =>
    obtain ⟨k0, v0⟩ := hd
    by_cases h0 : k0 = k
    · subst h0
      simp [Store.insert, Store.get?, Ne.symm h]
    · simp only [Store.insert, if_neg h0, Store.get?]
      by_cases h1 : k0 = k1
      · simp [h1]
      · simp [h1, ih]

theorem Store.mem_keys_iff (st : Store) (k : String) :
    k ∈ Store.keys st ↔ ∃ gw, Store.get? st k = some gw := by
  induction st with
  | nil => simp [Store.keys, Store.get?]
  | cons hd tl ih =>
    obtain ⟨k0, v0⟩ := hd
    by_cases h : k0 = k
    · subst h
      simp [Store.keys, Store.get?]
    · have e1 : Store.keys ((k0, v0) :: tl) = k0 :: Store.keys tl := rfl
      have e2 : Store.get? ((k0, v0) :: tl) k = Store.get? tl k := by
        simp [Store.get?, h]
      rw [e1, e2, List.mem_cons, ih]
      simp [Ne.symm h]

theorem Store.mem_keys_insert (st : Store) (k k1 : String) (v : Gateway) :
    k1 ∈ Store.keys (Store.insert st k v) ↔ k1 = k ∨ k1 ∈ Store.keys st := by
  by_cases h : k1 = k
  · subst h
    simp [Store.mem_keys_iff, Store.get?_insert_self]
  · rw [Store.mem_keys_iff, Store.get?_insert_of_ne _ _ _ _ h, ← Store.mem_keys_iff]
    simp [h]

theorem Store.WF.insertGw {st : Store} {k : String} {v : Gateway}
    (h : Store.WF st) (hv : v.id = k) : Store.WF (Store.insert st k v) := by
  intro k1 gw hg
  by_cases hk : k1 = k
  · subst hk
    rw [Store.get?_insert_self] at hg
    cases hg
    exact hv
  · rw [Store.get?_insert_of_ne _ _ _ _ hk] at hg
    exact h _ _ hg

theorem fanout_cons (i : EntityIdentifiers) (ids : List EntityIdentifiers)
    (data : GatewayConnectionStats) (st : Store) :
    fanout (i :: ids) data st
      = fanout ids data
          (Store.insert st (EntityIdentifiers.getGatewayId i)
            (mkGateway (EntityIdentifiers.getGatewayId i) data)) := rfl

theorem fanout_get?_of_not_mem (ids : List EntityIdentifiers)
    (data : GatewayConnectionStats) (st : Store) (gwid : String)
    (h : gwid ∉ ids.map EntityIdentifiers.getGatewayId) :
    Store.get? (fanout ids data st) gwid = Store.get? st gwid := by
  induction ids generalizing st with
  | nil => rfl
  | cons i t ih =>
    rw [fanout_cons]
    have h1 : gwid ≠ EntityIdentifiers.getGatewayId i
        ∧ gwid ∉ t.map EntityIdentifiers.getGatewayId := by
      constructor
      · intro he
        exact h (by simp [he])
      · intro hm
        exact h (by simp [hm])
    rw [ih _ h1.2]
    exact Store.get?_insert_of_ne _ _ _ _ h1.1

theorem fanout_get?_of_mem (ids : List EntityIdentifiers)
    (data : GatewayConnectionStats) (st : Store) (gwid : String)
    (h : gwid ∈ ids.map EntityIdentifiers.getGatewayId) :
    Store.get? (fanout ids data st) gwid = some (mkGateway gwid data) := by
  induction ids generalizing st with
  | nil => simp at h
  | cons i t ih =>
    rw [fanout_cons]
    by_cases hm : gwid ∈ t.map EntityIdentifiers.getGatewayId
    · exact ih _ hm
    · have he : gwid = EntityIdentifiers.getGatewayId i := by
        rcases (by simpa using h : gwid = EntityIdentifiers.getGatewayId i
            ∨ gwid ∈ t.map EntityIdentifiers.getGatewayId) with h1 | h1
        · exact h1
        · exact absurd h1 hm
      subst he
      rw [fanout_get?_of_not_mem _ _ _ _ hm]
      exact Store.get?_insert_self _ _ _

theorem fanout_keys_subset (ids : List EntityIdentifiers)
    (data : GatewayConnectionStats) (st : Store) :
    Store.keys st ⊆ Store.keys (fanout ids data st) := by
  induction ids generalizing st with
  | nil => exact fun a ha => ha
  | cons i t ih =>
    intro a ha
    rw [fanout_cons]
    exact ih _ ((Store.mem_keys_insert _ _ _ _).mpr (Or.inr ha))

theorem fanout_mem_keys (ids : List EntityIdentifiers)
    (data : GatewayConnectionStats) (st : Store) (gwid : String)
    (h : gwid ∈ ids.map EntityIdentifiers.getGatewayId) :
    gwid ∈ Store.keys (fanout ids data st) :=
  (Store.mem_keys_iff _ _).mpr ⟨_, fanout_get?_of_mem _ _ _ _ h⟩

theorem fanout_WF (ids : List EntityIdentifiers)
    (data : GatewayConnectionStats) (st : Store) (h : Store.WF st) :
    Store.WF (fanout ids data st) := by
  induction ids generalizing st with
  | nil => exact h
  | cons i t ih =>
    rw [fanout_cons]
    exact ih _ (h.insertGw rfl)

/-! Reduction lemmas for one reporter iteration. -/

theorem mainStep_fst_of_name_ne (store : Store) (ev : Event)
    (h : ev.name ≠ statsEventName) : (mainStep store ev).1 = store := by
  simp [mainStep, h]

theorem mainStep_of_other (store : Store) (ev : Event) (t : String)
    (hd : ev.data = EventData.other t) : (mainStep store ev).1 = store := by
  by_cases hn : ev.name = statsEventName <;> simp [mainStep, hn, hd]

theorem mainStep_fst_of_stats (store : Store) (ev : Event)
    (data : GatewayConnectionStats) (hn : ev.name = statsEventName)
    (hd : ev.data = EventData.stats data) :
    (mainStep store ev).1 = fanout ev.identifiers data store := by
  simp [mainStep, hn, hd]

theorem mainStep_snd_of_stats (store : Store) (ev : Event)
    (data : GatewayConnectionStats) (hn : ev.name = statsEventName)
    (hd : ev.data = EventData.stats data) :
    (mainStep store ev).2
      = (List.insertionSort (fun a b => a ≤ b)
          (Store.keys (fanout ev.identifiers data store))).map
          (fun g => Output.gatewayLine
            (Store.getD (fanout ev.identifiers data store) g)) := by
  simp [mainStep, hn, hd]

theorem mainStep_keys_subset (store : Store) (ev : Event) :
    Store.keys store ⊆ Store.keys (mainStep store ev).1 := by
  by_cases hn : ev.name = statsEventName
  · cases hd : ev.data with
    | stats data =>
      rw [mainStep_fst_of_stats store ev data hn hd]
      exact fanout_keys_subset _ _ _
    | other t =>
      rw [mainStep_of_other store ev t hd]
      exact fun a ha => ha
  · rw [mainStep_fst_of_name_ne store ev hn]
    exact fun a ha => ha

theorem mainLoop_cons (store : Store) (ev : Event) (evs : List Event) :
    mainLoop store (ev :: evs) = mainLoop (mainStep store ev).1 evs := rfl

theorem mainLoop_append (store : Store) (evs1 evs2 : List Event) :
    mainLoop store (evs1 ++ evs2) = mainLoop (mainLoop store evs1) evs2 := by
  simp [mainLoop, List.foldl_append]

theorem mainLoop_keys_subset (store : Store) (evs : List Event) :
    Store.keys store ⊆ Store.keys (mainLoop store evs) := by
  induction evs generalizing store with
  | nil => exact fun a ha => ha
  | cons e t ih =>
    intro a ha
    rw [mainLoop_cons]
    exact ih _ (mainStep_keys_subset store e ha)

/-! Concrete fixtures used by witnesses and counterexamples. -/

/-- An entity identifier wrapping a gateway id, as built at main.go
line 120. -/
def gwEntity (gw : String) : EntityIdentifiers :=
  { gatewayIds := some { gatewayId := gw } }

/-- A fully populated stats payload; uplinkCount is 7 as in the spec's
multi-id fan-out scenario. -/
def sampleStats : GatewayConnectionStats :=
  { connectedAt := 100, uplinkCount := 7, downlinkCount := 3,
    txAcknowledgmentCount := 2, lastUplinkReceivedAt := 110,
    lastDownlinkReceivedAt := 120, lastTxAcknowledgmentReceivedAt := 130 }

/-- First stats payload of the latest-wins scenario. -/
def statsA : GatewayConnectionStats :=
  { connectedAt := 40, uplinkCount := 3, downlinkCount := 0,
    txAcknowledgmentCount := 0, lastUplinkReceivedAt := 51,
    lastDownlinkReceivedAt := 0, lastTxAcknowledgmentReceivedAt := 0 }

/-- Second stats payload of the latest-wins scenario. -/
def statsB : GatewayConnectionStats :=
  { connectedAt := 40, uplinkCount := 5, downlinkCount := 0,
    txAcknowledgmentCount := 0, lastUplinkReceivedAt := 52,
    lastDownlinkReceivedAt := 0, lastTxAcknowledgmentReceivedAt := 0 }

/-- A recognized stats event for gw1 carrying statsA. -/
def evA : Event :=
  { name := statsEventName, data := EventData.stats statsA,
    identifiers := [gwEntity "gw1"] }

/-- A recognized stats event for gw1 carrying statsB. -/
def evB : Event :=
  { name := statsEventName, data := EventData.stats statsB,
    identifiers := [gwEntity "gw1"] }

/-- A recognized stats event naming the two gateways gwA and gwB. -/
def multiEvent : Event :=
  { name := statsEventName, data := EventData.stats sampleStats,
    identifiers := [gwEntity "gwA", gwEntity "gwB"] }

/-- An event whose name is not the recognized stats kind. -/
def otherNameEvent : Event :=
  { name := "gs.up.receive", data := EventData.stats sampleStats,
    identifiers := [gwEntity "gw1"] }

/-- A stats-named event whose payload has an unexpected runtime type. -/
def mismatchEvent : Event :=
  { name := statsEventName, data := EventData.other "*ttnpb.ApplicationUp",
    identifiers := [gwEntity "gw1"] }

/-- A client subscribed to the fixed identifier set of gw1 and gw2. -/
def sampleClient : Client :=
  { server := "eu1.cloud.thethings.network:8884", apikey := "apikey",
    gateways := [gwEntity "gw1", gwEntity "gw2"] }

/-- Environment in which the first session dies with Unavailable on its first
receive and the re-open succeeds with a fresh working session. -/
def reconnectConns : Nat → ConnectOutcome := fun k =>
  if k = 0 then ConnectOutcome.ok [RecvResult.err StreamErrClass.unavailable]
  else ConnectOutcome.ok [RecvResult.ok (ProtoEvent.valid evA)]

/-- Environment delivering a malformed proto event followed by a well-formed
one on the same session. -/
def malformedConns : Nat → ConnectOutcome := fun _ =>
  ConnectOutcome.ok [RecvResult.ok (ProtoEvent.malformed "unexpected payload"),
                     RecvResult.ok (ProtoEvent.valid evA)]

/-- A store already holding a record for gw0. -/
def storeGw0 : Store := [("gw0", mkGateway "gw0" statsA)]

/-! Claim theorems. -/

/-- C1: the claim states that after an Unavailable receive error and a
successful re-open the receive loop resumes on the new session and does not
terminate. The code (main.go lines 176 to 184) instead falls through to the
unconditional return of the original receive error: at the concrete failing
input whose first session yields one Unavailable error and whose re-open
succeeds (reconnectConns answers call 1 with a fresh working session),
getEvents performs the 5 second backoff and exactly one re-open with the
identical request and then terminates fatally with the receive error, never
touching the new session. -/
theorem getEvents_reconnect_then_return_bug :
    reconnectConns 1 = ConnectOutcome.ok [RecvResult.ok (ProtoEvent.valid evA)]
    ∧ getEvents sampleClient reconnectConns 10
        = LoopOutcome.fatal (FatalError.recvFail StreamErrClass.unavailable)
            [TraceItem.openStream sampleClient.streamEventsRequest,
             TraceItem.sleepSeconds 5,
             TraceItem.openStream sampleClient.streamEventsRequest] :=
  ⟨rfl, rfl⟩

/-- C5: a Canceled receive error is absorbed: the iteration behaves exactly
like the loop restarted on the remainder of the same session, with the same
connect-attempt index, recording no sleep, no stream open and no emitted
event, so no reconnection happens, the loop does not terminate there, and
downstream store mutations are unchanged. -/
theorem getEventsLoop_canceled_absorbed (c : Client)
    (conns : Nat → ConnectOutcome) (fuel k : Nat) (rest : List RecvResult)
    (tr : List TraceItem) :
    getEventsLoop c conns (fuel + 1) k
        (RecvResult.err StreamErrClass.canceled :: rest) tr
      = getEventsLoop c conns fuel k rest tr := rfl

/-- Helper for C6: the receive loop only ever records stream opens carrying
the client's own request, given that the trace accumulated so far does. -/
theorem getEventsLoop_openStream_req (c : Client)
    (conns : Nat → ConnectOutcome) :
    ∀ (fuel k : Nat) (sess : List RecvResult) (tr : List TraceItem),
      (∀ req, TraceItem.openStream req ∈ tr → req = c.streamEventsRequest) →
      ∀ req,
        TraceItem.openStream req ∈ traceOf (getEventsLoop c conns fuel k sess tr) →
        req = c.streamEventsRequest
  | 0, _, _, _, htr, req, hm => htr req hm
  | _ + 1, _, [], _, htr, req, hm => htr req hm
  | fuel + 1, k, RecvResult.ok (ProtoEvent.malformed _) :: _, _, htr, req, hm =>
    htr req hm
  | fuel + 1, k, RecvResult.ok (ProtoEvent.valid e) :: rest, tr, htr, req, hm =>
    getEventsLoop_openStream_req c conns fuel k rest (tr ++ [TraceItem.emit e])
      (by
        intro r hr
        rcases List.mem_append.mp hr with h1 | h1
        · exact htr r h1
        · simp at h1)
      req hm
  | fuel + 1, k, RecvResult.err StreamErrClass.canceled :: rest, tr, htr, req, hm =>
    getEventsLoop_openStream_req c conns fuel k rest tr htr req hm
  | fuel + 1, k, RecvResult.err StreamErrClass.unavailable :: rest, tr, htr, req, hm => by
    have hm1 : TraceItem.openStream req
        ∈ tr ++ [TraceItem.sleepSeconds 5,
                 TraceItem.openStream c.streamEventsRequest] := by
      cases hc : conns k with
      | fail m =>
        have := hm
        rw [show getEventsLoop c conns (fuel + 1) k
              (RecvResult.err StreamErrClass.unavailable :: rest) tr
            = LoopOutcome.fatal (FatalError.reconnectFail m)
                (tr ++ [TraceItem.sleepSeconds 5,
                        TraceItem.openStream c.streamEventsRequest]) by
          simp [getEventsLoop, hc]] at this
        exact this
      | ok s =>
        have := hm
        rw [show getEventsLoop c conns (fuel + 1) k
              (RecvResult.err StreamErrClass.unavailable :: rest) tr
            = LoopOutcome.fatal (FatalError.recvFail StreamErrClass.unavailable)
                (tr ++ [TraceItem.sleepSeconds 5,
                        TraceItem.openStream c.streamEventsRequest]) by
          simp [getEventsLoop, hc]] at this
        exact this
    rcases List.mem_append.mp hm1 with h1 | h1
    · exact htr req h1
    · simp only [List.mem_cons, List.mem_singleton] at h1
      rcases h1 with h1 | h1 | h1
      · cases h1
      · cases h1
        rfl
      · cases h1
  | fuel + 1, k, RecvResult.err StreamErrClass.other :: rest, tr, htr, req, hm =>
    htr req hm

/-- C6: every stream open performed during a run of getEvents, the initial
subscription and any re-open on the reconnect path alike, carries exactly
the client's fixed gateway identifier set resolved at startup. -/
theorem getEvents_identifier_set_fixed (c : Client)
    (conns : Nat → ConnectOutcome) (fuel : Nat) (req : StreamEventsRequest)
    (h : TraceItem.openStream req ∈ traceOf (getEvents c conns fuel)) :
    req.identifiers = c.gateways := by
  have hreq : req = c.streamEventsRequest := by
    unfold getEvents at h
    cases hc : conns 0 with
    | fail m =>
      rw [hc] at h
      simp [traceOf] at h
      exact h
    | ok sess =>
      rw [hc] at h
      refine getEventsLoop_openStream_req c conns fuel 1 sess _ ?_ req h
      intro r hr
      simpa using hr
  rw [hreq]
  rfl

/-- Witness for C6 at the concrete reconnect run. -/
theorem getEvents_identifier_set_fixed_witness :
    (Client.streamEventsRequest sampleClient).identifiers
      = sampleClient.gateways :=
  getEvents_identifier_set_fixed sampleClient reconnectConns 10
    (Client.streamEventsRequest sampleClient) (by decide)

/-- C2 counterexample: decoding does abort the consumer loop. On a session
delivering a malformed proto event followed by a well-formed one, getEvents
returns the fatal FromProto error and its trace shows that the subsequent
well-formed event was never forwarded, contradicting the claim that a
malformed payload is logged and skipped with processing continuing. -/
theorem getEvents_fromProto_aborts :
    getEvents sampleClient malformedConns 10
      = LoopOutcome.fatal (FatalError.fromProtoFail "unexpected payload")
          [TraceItem.openStream sampleClient.streamEventsRequest] := rfl

/-- C2 amended: in the reporter loop an event with an unrecognized name or a
payload of an unexpected runtime type is skipped (the latter after logging
the observed type) and processing of subsequent events continues on an
unchanged store; a FromProto decode failure in getEvents, however,
terminates the consumer loop with a fatal error. -/
theorem decode_isolation_amended (store : Store) (ev : Event)
    (evs : List Event) :
    (ev.name ≠ statsEventName → mainLoop store (ev :: evs) = mainLoop store evs)
    ∧ (∀ t, ev.data = EventData.other t →
        mainLoop store (ev :: evs) = mainLoop store evs)
    ∧ (∀ (c : Client) (conns : Nat → ConnectOutcome) (fuel k : Nat)
        (rest : List RecvResult) (tr : List TraceItem) (m : String),
        getEventsLoop c conns (fuel + 1) k
            (RecvResult.ok (ProtoEvent.malformed m) :: rest) tr
          = LoopOutcome.fatal (FatalError.fromProtoFail m) tr) := by
  refine ⟨?_, ?_, ?_⟩
  · intro h
    rw [mainLoop_cons, mainStep_fst_of_name_ne store ev h]
  · intro t hd
    rw [mainLoop_cons, mainStep_of_other store ev t hd]
  · intro c conns fuel k rest tr m
    rfl

/-- Witness for the amended C2 on concrete events. -/
theorem decode_isolation_amended_witness :
    mainLoop [] [otherNameEvent, evA] = mainLoop [] [evA]
    ∧ mainLoop [] [mismatchEvent, evA] = mainLoop [] [evA]
    ∧ getEventsLoop sampleClient reconnectConns 3 1
        [RecvResult.ok (ProtoEvent.malformed "bad")] []
      = LoopOutcome.fatal (FatalError.fromProtoFail "bad") [] :=
  ⟨(decode_isolation_amended [] otherNameEvent [evA]).1 (by decide),
   (decode_isolation_amended [] mismatchEvent [evA]).2.1
     "*ttnpb.ApplicationUp" rfl,
   (decode_isolation_amended [] mismatchEvent []).2.2 sampleClient
     reconnectConns 2 1 [] [] "bad"⟩

/-- C3: zero suppression in Gateway.String. A zero connect time produces no
connected clause and no connect sample; a zero uplink, downlink or txAck
count produces no corresponding clause and no sample of that metric kind in
either gauge vector. -/
theorem gateway_string_zero_suppression (g : Gateway) :
    (g.connectTime = 0 →
      (∀ t, Part.connected t ∉ (Gateway.string g).1)
      ∧ ∀ s ∈ (Gateway.string g).2, s.type ≠ "connect")
    ∧ (g.uplinkCount = 0 →
      (∀ n t, Part.uplinks n t ∉ (Gateway.string g).1)
      ∧ ∀ s ∈ (Gateway.string g).2, s.type ≠ "uplink")
    ∧ (g.downlinkCount = 0 →
      (∀ n t, Part.downlinks n t ∉ (Gateway.string g).1)
      ∧ ∀ s ∈ (Gateway.string g).2, s.type ≠ "downlink")
    ∧ (g.txAckCount = 0 →
      (∀ n t, Part.txAck n t ∉ (Gateway.string g).1)
      ∧ ∀ s ∈ (Gateway.string g).2, s.type ≠ "txack") := by
  refine ⟨fun h0 => ?_, fun h0 => ?_, fun h0 => ?_, fun h0 => ?_⟩ <;>
    · unfold Gateway.string
      simp only [h0]
      split_ifs <;> constructor <;> simp_all

/-- Witness for C3 at the all-zero gateway. -/
theorem gateway_string_zero_suppression_witness :
    ((∀ t, Part.connected t ∉ (Gateway.string nilGateway).1)
      ∧ ∀ s ∈ (Gateway.string nilGateway).2, s.type ≠ "connect")
    ∧ ((∀ n t, Part.uplinks n t ∉ (Gateway.string nilGateway).1)
      ∧ ∀ s ∈ (Gateway.string nilGateway).2, s.type ≠ "uplink")
    ∧ ((∀ n t, Part.downlinks n t ∉ (Gateway.string nilGateway).1)
      ∧ ∀ s ∈ (Gateway.string nilGateway).2, s.type ≠ "downlink")
    ∧ ((∀ n t, Part.txAck n t ∉ (Gateway.string nilGateway).1)
      ∧ ∀ s ∈ (Gateway.string nilGateway).2, s.type ≠ "txack") :=
  ⟨(gateway_string_zero_suppression nilGateway).1 rfl,
   (gateway_string_zero_suppression nilGateway).2.1 rfl,
   (gateway_string_zero_suppression nilGateway).2.2.1 rfl,
   (gateway_string_zero_suppression nilGateway).2.2.2 rfl⟩

/-- C4: latest wins. Whatever events were applied before, after a final
recognized stats event naming a gateway id the stored snapshot under that id
equals exactly the fields of that final event, with nothing retained or
merged from earlier events. -/
theorem mainLoop_latest_wins (store : Store) (evs : List Event) (ev : Event)
    (data : GatewayConnectionStats) (gwid : String)
    (hn : ev.name = statsEventName) (hd : ev.data = EventData.stats data)
    (hid : gwid ∈ ev.identifiers.map EntityIdentifiers.getGatewayId) :
    Store.get? (mainLoop store (evs ++ [ev])) gwid
      = some (mkGateway gwid data) := by
  rw [mainLoop_append,
    show mainLoop (mainLoop store evs) [ev]
        = (mainStep (mainLoop store evs) ev).1 from rfl,
    mainStep_fst_of_stats _ ev data hn hd]
  exact fanout_get?_of_mem _ _ _ _ hid

/-- Witness for C4: the spec scenario. After evA with uplinkCount 3 and then
evB with uplinkCount 5 at t2, gw1 holds exactly the snapshot of evB. -/
theorem mainLoop_latest_wins_witness :
    Store.get? (mainLoop [] ([evA] ++ [evB])) "gw1"
      = some (mkGateway "gw1" statsB)
    ∧ (mkGateway "gw1" statsB).uplinkCount = 5
    ∧ (mkGateway "gw1" statsB).uplinkTime = 52 :=
  ⟨mainLoop_latest_wins [] [evA] evB statsB "gw1" rfl rfl (by decide),
   rfl, rfl⟩

/-- C7: multi-id fan-out. A recognized stats event applies the same snapshot
values independently to every named gateway id: afterwards each named id
holds exactly the snapshot built from the event's fields and its own id. -/
theorem mainStep_multi_id_fanout (store : Store) (ev : Event)
    (data : GatewayConnectionStats) (hn : ev.name = statsEventName)
    (hd : ev.data = EventData.stats data) :
    ∀ i ∈ ev.identifiers,
      Store.get? (mainStep store ev).1 (EntityIdentifiers.getGatewayId i)
        = some (mkGateway (EntityIdentifiers.getGatewayId i) data) := by
  intro i hi
  rw [mainStep_fst_of_stats store ev data hn hd]
  exact fanout_get?_of_mem _ _ _ _ (List.mem_map_of_mem _ hi)

/-- Witness for C7: the spec scenario with ids gwA and gwB and uplinkCount 7:
both gateways end up with uplinkCount 7. -/
theorem mainStep_multi_id_fanout_witness :
    Store.get? (mainStep [] multiEvent).1 "gwA"
      = some (mkGateway "gwA" sampleStats)
    ∧ Store.get? (mainStep [] multiEvent).1 "gwB"
      = some (mkGateway "gwB" sampleStats)
    ∧ (mkGateway "gwA" sampleStats).uplinkCount = 7
    ∧ (mkGateway "gwB" sampleStats).uplinkCount = 7 :=
  ⟨mainStep_multi_id_fanout [] multiEvent sampleStats rfl rfl
     (gwEntity "gwA") (by decide),
   mainStep_multi_id_fanout [] multiEvent sampleStats rfl rfl
     (gwEntity "gwB") (by decide),
   rfl, rfl⟩

/-- Helper for C8: the ids carried by a list of summary lines built from a
key list. -/
theorem outputIds_map_gatewayLine (l : List String) (f : String → Gateway) :
    outputIds (l.map (fun g => Output.gatewayLine (f g)))
      = l.map (fun g => (f g).id) := by
  induction l with
  | nil => rfl
  | cons a t ih =>
    simp only [List.map_cons, outputIds, List.filterMap_cons] at ih ⊢
    rw [ih]

/-- C8: after a recognized stats event the reporter emits summary lines in
sorted gateway-id order, and for every gateway id named by the event a line
showing exactly the snapshot just stored for it is among them. -/
theorem mainStep_summary_sorted (store : Store) (ev : Event)
    (data : GatewayConnectionStats) (hwf : Store.WF store)
    (hn : ev.name = statsEventName) (hd : ev.data = EventData.stats data) :
    List.Sorted (fun a b : String => a ≤ b) (outputIds (mainStep store ev).2)
    ∧ ∀ i ∈ ev.identifiers,
        Output.gatewayLine
            (mkGateway (EntityIdentifiers.getGatewayId i) data)
          ∈ (mainStep store ev).2 := by
  have hwf1 : Store.WF (fanout ev.identifiers data store) :=
    fanout_WF _ _ _ hwf
  rw [mainStep_snd_of_stats store ev data hn hd]
  constructor
  · rw [outputIds_map_gatewayLine]
    have hident : ∀ g ∈ List.insertionSort (fun a b : String => a ≤ b)
        (Store.keys (fanout ev.identifiers data store)),
        (Store.getD (fanout ev.identifiers data store) g).id = g := by
      intro g hg
      have hgk : g ∈ Store.keys (fanout ev.identifiers data store) := by
        simpa using hg
      obtain ⟨gw, hgw⟩ :=
        (Store.mem_keys_iff (fanout ev.identifiers data store) g).mp hgk
      rw [Store.getD, hgw]
      exact hwf1 _ _ hgw
    have hmap : (List.insertionSort (fun a b : String => a ≤ b)
          (Store.keys (fanout ev.identifiers data store))).map
          (fun g => (Store.getD (fanout ev.identifiers data store) g).id)
        = List.insertionSort (fun a b : String => a ≤ b)
            (Store.keys (fanout ev.identifiers data store)) := by
      conv_rhs => rw [← List.map_id (List.insertionSort
        (fun a b : String => a ≤ b)
        (Store.keys (fanout ev.identifiers data store)))]
      exact List.map_congr_left hident
    rw [hmap]
    exact List.sorted_insertionSort _ _
  · intro i hi
    have hkmem : EntityIdentifiers.getGatewayId i
        ∈ List.insertionSort (fun a b : String => a ≤ b)
            (Store.keys (fanout ev.identifiers data store)) := by
      simp only [List.mem_insertionSort]
      exact fanout_mem_keys _ _ _ _ (List.mem_map_of_mem _ hi)
    have hgd : Store.getD (fanout ev.identifiers data store)
          (EntityIdentifiers.getGatewayId i)
        = mkGateway (EntityIdentifiers.getGatewayId i) data := by
      rw [Store.getD,
        fanout_get?_of_mem _ _ _ _ (List.mem_map_of_mem _ hi)]
      rfl
    rw [← hgd]
    exact List.mem_map_of_mem _ hkmem

/-- Witness for C8 on the empty store and the two-gateway event. -/
theorem mainStep_summary_sorted_witness :
    List.Sorted (fun a b : String => a ≤ b)
      (outputIds (mainStep [] multiEvent).2)
    ∧ Output.gatewayLine (mkGateway "gwA" sampleStats)
        ∈ (mainStep [] multiEvent).2 := by
  have h := mainStep_summary_sorted [] multiEvent sampleStats
    (fun k gw hg => by simp [Store.get?] at hg) rfl rfl
  exact ⟨h.1, h.2 (gwEntity "gwA") (by decide)⟩

/-- C9: lifecycle of the store. Keys are never deleted by any reporter
operation, and every gateway id named by a recognized stats event of the run
is present in the final store, created by its first such event and kept
thereafter. -/
theorem mainLoop_store_lifecycle (store : Store) (evs : List Event) :
    Store.keys store ⊆ Store.keys (mainLoop store evs)
    ∧ ∀ ev ∈ evs, ∀ data, ev.name = statsEventName →
        ev.data = EventData.stats data →
        ∀ i ∈ ev.identifiers,
          EntityIdentifiers.getGatewayId i
            ∈ Store.keys (mainLoop store evs) := by
  constructor
  · exact mainLoop_keys_subset store evs
  · intro ev hev data hn hd i hi
    obtain ⟨l1, l2, rfl⟩ := List.append_of_mem hev
    rw [mainLoop_append, mainLoop_cons]
    refine mainLoop_keys_subset _ _ ?_
    rw [mainStep_fst_of_stats _ ev data hn hd]
    exact fanout_mem_keys _ _ _ _ (List.mem_map_of_mem _ hi)

/-- Witness for C9: a pre-existing key survives an update and a newly named
gateway is created. -/
theorem mainLoop_store_lifecycle_witness :
    "gw0" ∈ Store.keys (mainLoop storeGw0 [multiEvent])
    ∧ "gwA" ∈ Store.keys (mainLoop storeGw0 [multiEvent]) :=
  ⟨(mainLoop_store_lifecycle storeGw0 [multiEvent]).1 (by decide),
   (mainLoop_store_lifecycle storeGw0 [multiEvent]).2 multiEvent (by decide)
     sampleStats rfl rfl (gwEntity "gwA") (by decide)⟩

/-- C10: key consistency. If every snapshot in the store is stored under its
own id, the same holds after the reporter applies any sequence of events; in
particular every state reachable from the empty initial map satisfies the
invariant. -/
theorem mainLoop_key_consistency (store : Store) (hwf : Store.WF store)
    (evs : List Event) : Store.WF (mainLoop store evs) := by
  induction evs generalizing store with
  | nil => exact hwf
  | cons e t ih =>
    rw [mainLoop_cons]
    refine ih _ ?_
    by_cases hn : e.name = statsEventName
    · cases hd : e.data with
      | stats data =>
        rw [mainStep_fst_of_stats store e data hn hd]
        exact fanout_WF _ _ _ hwf
      | other t0 =>
        rw [mainStep_of_other store e t0 hd]
        exact hwf
    · rw [mainStep_fst_of_name_ne store e hn]
      exact hwf

/-- Witness for C10 from the empty initial store. -/
theorem mainLoop_key_consistency_witness :
    Store.WF (mainLoop [] [multiEvent, evA]) :=
  mainLoop_key_consistency []
    (fun k gw hg => by simp [Store.get?] at hg) [multiEvent, evA]

end Lytgae
